import Mathlib

/-!
Shallow embedding of the Hyper-Personalized Financial Life Coach repository,
with theorems settling the frozen claims about it.

Sources embedded:
- `src/financial_engine.py` (goal planner, cash-flow summary, predictive
  alerts, credit-card scorer) in namespace `Engine`;
- `src/backend/app/services/recommendation_service.py` in namespace `Reco`;
- `src/backend/app/services/alert_service.py` in namespace `AlertSvc`.

Python floats are modelled as `ℚ`; `math.inf` as `⊤ : WithTop ℚ`; datetimes
as integer day counts; code that raises an exception returns `none`.
-/

namespace Engine

/-- Python `str.lower()` (per-character lowercasing). -/
def strLower (s : String) : String := String.mk (s.data.map Char.toLower)

/-- Python `int(q)` on a number: truncation toward zero. -/
def ratTrunc (q : ℚ) : ℤ := if q < 0 then ⌈q⌉ else ⌊q⌋

/-- `_annual_return_from_risk`: `mapping.get(int(risk_score), 0.1)` with
`mapping = {1: 0.065, 2: 0.08, 3: 0.105, 4: 0.12, 5: 0.145}`. -/
def annual_return_from_risk (risk_score : ℚ) : ℚ :=
  let n := ratTrunc risk_score
  if n = 1 then 65/1000
  else if n = 2 then 8/100
  else if n = 3 then 105/1000
  else if n = 4 then 12/100
  else if n = 5 then 145/1000
  else 1/10

/-- `months = max(int(years * 12), 1)` from `_sip_required`. -/
def sipMonths (years : ℚ) : ℤ := max (ratTrunc (years * 12)) 1

/-- `_sip_required`: returns `(monthly_investment, projected_value)`. -/
def sip_required (target_amount years annual_return : ℚ) : ℚ × ℚ :=
  let months := (sipMonths years).toNat
  let monthly_rate := max (annual_return / 12) (1/10000)
  let growth_factor := (1 + monthly_rate) ^ months
  let monthly_investment := target_amount * monthly_rate / (growth_factor - 1)
  let projected_value := monthly_investment * (growth_factor - 1) / monthly_rate
  (monthly_investment, projected_value)

/-- One entry of the `goals` iterable passed to `build_goal_plans`
(a goal dict whose `target_amount` and `years` convert to numbers). -/
structure GoalInput where
  goal : String
  target_amount : ℚ
  years : ℚ
  priority : String

/-- The `GoalPlan` dataclass. -/
structure GoalPlan where
  name : String
  target_amount : ℚ
  years : ℚ
  priority : String
  monthly_investment : ℚ
  projected_value : ℚ
  explanation : String

instance : Inhabited GoalPlan :=
  ⟨⟨"Goal", 0, 0, "medium", 0, 0, ""⟩⟩

/-- `build_goal_plans` on the deterministic path (`USE_LLM_EXPLAIN` unset, so
`explanation` is the rule-based text; number formatting is display-only). -/
def build_goal_plans (goals : List GoalInput) (risk_score : ℚ) : List GoalPlan :=
  let risk_rate := annual_return_from_risk risk_score
  goals.map fun g =>
    let mi_pv := sip_required g.target_amount g.years risk_rate
    { name := g.goal
      target_amount := g.target_amount
      years := g.years
      priority := strLower g.priority
      monthly_investment := mi_pv.1
      projected_value := mi_pv.2
      explanation :=
        "Uses a " ++ toString risk_rate ++
          " annual return aligned to risk profile to fund " ++
          toString g.target_amount ++ " in " ++ toString g.years ++
          " years. Requires SIP of " ++ toString mi_pv.1 ++ "/month." }

/-- The dict returned by `summarize_cash_flow`. -/
structure CashSummary where
  surplus : ℚ
  runway_months : WithTop ℚ
  savings_rate : ℚ
  recommended_sip : ℚ

/-- `summarize_cash_flow`. -/
def summarize_cash_flow (monthly_income monthly_expense existing_sips emi
    recommended_sip cash_reserve : ℚ) : CashSummary :=
  let surplus :=
    monthly_income - (monthly_expense + existing_sips + recommended_sip + emi)
  let burn := monthly_expense + emi
  let runway_months : WithTop ℚ :=
    if burn = 0 then ⊤ else ((cash_reserve / burn : ℚ) : WithTop ℚ)
  let savings_rate :=
    if monthly_income = 0 then 0
    else max ((monthly_income - monthly_expense) / monthly_income) 0
  { surplus := surplus
    runway_months := runway_months
    savings_rate := savings_rate
    recommended_sip := recommended_sip }

def msg_deficit : String :=
  "Projected monthly cash deficit could cause SIP or EMI misses. Increase income or cut variable spends."

def msg_thin : String :=
  "Surplus under ₹5k; a single large bill can derail goals. Move discretionary spends to UPI alerts."

/-- Rendering of the runway number interpolated into the low-reserve warning
(Python formats it with `:.1f`; the rendering itself is display-only). -/
def fmt_runway (r : WithTop ℚ) : String :=
  if r = ⊤ then "inf" else toString (r.untop' 0)

def msg_runway (r : WithTop ℚ) : String :=
  "Emergency reserve covers only " ++ fmt_runway r ++
    " months. Target 6x monthly burn for resilience."

def msg_savings : String :=
  "Savings rate below 20% of income. Automate transfers on salary day to raise investible surplus."

def msg_healthy : String :=
  "Cash runway and surplus look healthy for upcoming SIPs."

/-- `predictive_alerts`. -/
def predictive_alerts (cs : CashSummary) : List String :=
  let l1 : List String :=
    if cs.surplus < 0 then [msg_deficit]
    else if cs.surplus < 5000 then [msg_thin]
    else []
  let l2 := l1 ++ (if cs.runway_months < 3 then [msg_runway cs.runway_months] else [])
  let l3 := l2 ++ (if cs.savings_rate < 1/5 then [msg_savings] else [])
  if l3.isEmpty then [msg_healthy] else l3

/-- A credit-card catalog item as consumed by `score_card`; `Option` fields
mirror dict keys that may be absent (`item.get(key, default)`). -/
structure CardItem where
  name : String
  best_for : Option (List String)
  min_income : Option ℚ
  annual_fee : Option ℚ

/-- `lifestyle_tags = set(cat.lower() for cat in top_categories)` from
`recommend_products`. -/
def lifestyle_tags_of (top_categories : List String) : List String :=
  top_categories.map strLower

/-- `score_card` from `recommend_products`, over the precomputed
`lifestyle_tags`. -/
def score_card (income : ℚ) (lifestyle_tags : List String) (item : CardItem) : ℚ :=
  let s1 : ℚ := if item.min_income.getD 0 ≤ income then 2 else 0
  let s2 : ℚ :=
    if (item.best_for.getD []).any (fun t => lifestyle_tags.contains t) then 3/2 else 0
  s1 + s2 - item.annual_fee.getD 0 / 10000

/-- Case-insensitive intersection of lifestyle tags and categories, as the
spec describes the matching rule (case folded on both sides). -/
def ci_intersects (tags cats : List String) : Bool :=
  tags.any (fun t => cats.any (fun c => strLower t == strLower c))

end Engine

namespace Engine

theorem ratTrunc_of_nonneg {q : ℚ} (h : 0 ≤ q) : ratTrunc q = ⌊q⌋ := by
  simp [ratTrunc, not_lt.mpr h]

theorem monthly_rate_pos (a : ℚ) : 0 < max (a / 12) (1/10000) :=
  lt_of_lt_of_le (by norm_num) (le_max_right _ _)

theorem sipMonths_toNat_ne (y : ℚ) : (sipMonths y).toNat ≠ 0 := by
  have : (1 : ℤ) ≤ sipMonths y := le_max_right _ _
  omega

theorem growth_factor_gt_one (ρ : ℚ) (hρ : 0 < ρ) (m : ℕ) (hm : m ≠ 0) :
    1 < (1 + ρ) ^ m :=
  one_lt_pow₀ (by linarith) hm

/-- In exact arithmetic the SIP round trip is exact: recomputing the future
value from the derived contribution returns the target, for every input. -/
theorem sip_required_roundtrip (T y a : ℚ) : (sip_required T y a).2 = T := by
  simp only [sip_required]
  set m := (sipMonths y).toNat with hm_def
  set ρ := max (a / 12) (1/10000) with hρ_def
  have hρ : 0 < ρ := monthly_rate_pos a
  have hG : 1 < (1 + ρ) ^ m := growth_factor_gt_one ρ hρ m (sipMonths_toNat_ne y)
  rw [div_mul_cancel₀ _ (by linarith : (1 + ρ) ^ m - 1 ≠ 0),
    mul_div_cancel_right₀ _ (ne_of_gt hρ)]

/-- C1: every `GoalPlan` built by `build_goal_plans` with positive target and
horizon and a risk score 1..5 has `projected_value` equal to `target_amount`,
hence within the 1e-6 relative tolerance the spec demands. -/
theorem goal_plan_projected_roundtrip (goals : List GoalInput) (r : ℤ)
    (hr1 : 1 ≤ r) (hr5 : r ≤ 5) (plan : GoalPlan)
    (hp : plan ∈ build_goal_plans goals ((r : ℤ) : ℚ))
    (hT : 0 < plan.target_amount) (hy : 0 < plan.years) :
    plan.projected_value = plan.target_amount ∧
      |plan.projected_value - plan.target_amount|
        ≤ plan.target_amount * (1/1000000) := by
  simp only [build_goal_plans, List.mem_map] at hp
  obtain ⟨g, hg, rfl⟩ := hp
  refine ⟨sip_required_roundtrip _ _ _, ?_⟩
  rw [sip_required_roundtrip]
  simp only [sub_self, abs_zero]
  positivity

def goalsC1 : List GoalInput := [⟨"Emergency fund", 1000, 1/12, "high"⟩]

def planC1 : GoalPlan := (build_goal_plans goalsC1 ((3 : ℤ) : ℚ)).headI

theorem goal_plan_projected_roundtrip_witness :
    ((1 : ℤ) ≤ 3 ∧ (3 : ℤ) ≤ 5 ∧
      planC1 ∈ build_goal_plans goalsC1 ((3 : ℤ) : ℚ) ∧
      0 < planC1.target_amount ∧ 0 < planC1.years) ∧
    (planC1.projected_value = planC1.target_amount ∧
      |planC1.projected_value - planC1.target_amount|
        ≤ planC1.target_amount * (1/1000000)) := by
  have hmem : planC1 ∈ build_goal_plans goalsC1 ((3 : ℤ) : ℚ) := by
    simp [planC1, goalsC1, build_goal_plans]
  have ht : 0 < planC1.target_amount := by norm_num [planC1, goalsC1, build_goal_plans]
  have hy : 0 < planC1.years := by norm_num [planC1, goalsC1, build_goal_plans]
  exact ⟨⟨by norm_num, by norm_num, hmem, ht, hy⟩,
    goal_plan_projected_roundtrip goalsC1 3 (by norm_num) (by norm_num) planC1 hmem ht hy⟩

/-- C2 counterexample: at `horizon_years = 0.9` the code computes
`max(int(0.9 * 12), 1) = 10` months, while the spec formula
`max(round(0.9 * 12), 1)` gives 11. -/
theorem sip_months_truncates_not_rounds :
    sipMonths (9/10) = 10 ∧ max (round ((9/10 : ℚ) * 12)) 1 = 11 := by
  constructor <;> norm_num [sipMonths, ratTrunc, round_eq]

/-- C2 (amended): for every nonnegative horizon the number of months is
`max(⌊horizon_years * 12⌋, 1)`: the product is truncated toward zero (floored
for nonnegative inputs), not rounded to the nearest integer. -/
theorem sip_months_eq_floor (years : ℚ) (h : 0 ≤ years) :
    sipMonths years = max ⌊years * 12⌋ 1 := by
  rw [sipMonths, ratTrunc_of_nonneg (by positivity)]

theorem sip_months_eq_floor_witness :
    (0 : ℚ) ≤ 9/10 ∧ sipMonths (9/10) = max ⌊(9/10 : ℚ) * 12⌋ 1 :=
  ⟨by norm_num, sip_months_eq_floor (9/10) (by norm_num)⟩

/-- The required monthly contribution is antitone in the assumed annual
return: `T * ρ / ((1+ρ)^m - 1) = T / ∑ i < m, (1+ρ)^i` and the geometric sum
is monotone in `ρ`. -/
theorem sip_contribution_antitone (T y a₁ a₂ : ℚ) (hT : 0 ≤ T) (ha : a₁ ≤ a₂) :
    (sip_required T y a₂).1 ≤ (sip_required T y a₁).1 := by
  simp only [sip_required]
  set m := (sipMonths y).toNat with hm_def
  have hm : m ≠ 0 := sipMonths_toNat_ne y
  set ρ₁ := max (a₁ / 12) (1/10000) with hρ₁_def
  set ρ₂ := max (a₂ / 12) (1/10000) with hρ₂_def
  have h1 : 0 < ρ₁ := monthly_rate_pos a₁
  have h2 : 0 < ρ₂ := monthly_rate_pos a₂
  have h12 : ρ₁ ≤ ρ₂ := max_le_max (by linarith) le_rfl
  have key : ∀ ρ : ℚ, 0 < ρ →
      T * ρ / ((1 + ρ) ^ m - 1) = T / ∑ i in Finset.range m, (1 + ρ) ^ i := by
    intro ρ hρ
    have hgs : (∑ i in Finset.range m, (1 + ρ) ^ i) * ρ = (1 + ρ) ^ m - 1 := by
      have h := geom_sum_mul (1 + ρ) m
      rwa [add_sub_cancel_left] at h
    rw [← hgs, mul_div_mul_right _ _ (ne_of_gt hρ)]
  rw [key ρ₁ h1, key ρ₂ h2]
  have hS : (∑ i in Finset.range m, (1 + ρ₁) ^ i)
      ≤ ∑ i in Finset.range m, (1 + ρ₂) ^ i :=
    Finset.sum_le_sum fun i _ => pow_le_pow_left₀ (by linarith) (by linarith) i
  have hSpos : 0 < ∑ i in Finset.range m, (1 + ρ₁) ^ i :=
    Finset.sum_pos (fun i _ => by positivity) (Finset.nonempty_range_iff.mpr hm)
  gcongr

/-- The risk-to-return table is monotone on integer scores 1..5. -/
theorem annual_return_mono (r₁ r₂ : ℤ) (hr1 : 1 ≤ r₁) (hlt : r₁ < r₂)
    (hr2 : r₂ ≤ 5) :
    annual_return_from_risk ((r₁ : ℤ) : ℚ) ≤ annual_return_from_risk ((r₂ : ℤ) : ℚ) := by
  have hr1' : r₁ ≤ 4 := by omega
  have hr2' : 2 ≤ r₂ := by omega
  interval_cases r₁ <;> interval_cases r₂ <;>
    norm_num [annual_return_from_risk, ratTrunc]

/-- C3: for fixed positive target and horizon, a higher risk score 1..5 never
yields a larger required monthly contribution. -/
theorem monthly_contribution_risk_antitone (T y : ℚ) (r₁ r₂ : ℤ)
    (hT : 0 < T) (hy : 0 < y) (hr1 : 1 ≤ r₁) (hlt : r₁ < r₂) (hr2 : r₂ ≤ 5) :
    (sip_required T y (annual_return_from_risk ((r₂ : ℤ) : ℚ))).1
      ≤ (sip_required T y (annual_return_from_risk ((r₁ : ℤ) : ℚ))).1 :=
  sip_contribution_antitone T y _ _ (le_of_lt hT)
    (annual_return_mono r₁ r₂ hr1 hlt hr2)

theorem monthly_contribution_risk_antitone_witness :
    ((0 : ℚ) < 1000 ∧ (0 : ℚ) < 2 ∧ (1 : ℤ) ≤ 1 ∧ (1 : ℤ) < 2 ∧ (2 : ℤ) ≤ 5) ∧
    (sip_required 1000 2 (annual_return_from_risk ((2 : ℤ) : ℚ))).1
      ≤ (sip_required 1000 2 (annual_return_from_risk ((1 : ℤ) : ℚ))).1 :=
  ⟨⟨by norm_num, by norm_num, by norm_num, by norm_num, by norm_num⟩,
    monthly_contribution_risk_antitone 1000 2 1 2 (by norm_num) (by norm_num)
      (by norm_num) (by norm_num) (by norm_num)⟩

/-- C4 counterexample: the non-integer score 3.7 is truncated to 3 and gets
the table value 0.105, not the claimed 0.10 default. -/
theorem annual_return_nonint_counterexample :
    annual_return_from_risk (37/10) = 21/200 ∧ (21/200 : ℚ) ≠ 1/10 := by
  constructor <;> norm_num [annual_return_from_risk, ratTrunc]

/-- C4 (amended): `_annual_return_from_risk` is total; it truncates its input
toward zero and returns the table value whenever the truncation lands in
1..5 — including for non-integer inputs — and the 0.10 default exactly when
the truncation falls outside 1..5. -/
theorem annual_return_trunc_table (q : ℚ) :
    (ratTrunc q = 1 → annual_return_from_risk q = 13/200) ∧
    (ratTrunc q = 2 → annual_return_from_risk q = 2/25) ∧
    (ratTrunc q = 3 → annual_return_from_risk q = 21/200) ∧
    (ratTrunc q = 4 → annual_return_from_risk q = 3/25) ∧
    (ratTrunc q = 5 → annual_return_from_risk q = 29/200) ∧
    ((ratTrunc q < 1 ∨ 5 < ratTrunc q) → annual_return_from_risk q = 1/10) := by
  unfold annual_return_from_risk
  refine ⟨fun h => ?_, fun h => ?_, fun h => ?_, fun h => ?_, fun h => ?_, fun h => ?_⟩
  · simp only [h]; norm_num
  · simp only [h]; norm_num
  · simp only [h]; norm_num
  · simp only [h]; norm_num
  · simp only [h]; norm_num
  · show (if ratTrunc q = 1 then (65/1000 : ℚ)
        else if ratTrunc q = 2 then 8/100
        else if ratTrunc q = 3 then 105/1000
        else if ratTrunc q = 4 then 12/100
        else if ratTrunc q = 5 then 145/1000
        else 1/10) = 1/10
    split_ifs <;> first | rfl | (exfalso; omega)

theorem annual_return_trunc_table_witness :
    ratTrunc (37/10) = 3 ∧ annual_return_from_risk (37/10) = 21/200 :=
  ⟨by norm_num [ratTrunc], (annual_return_trunc_table (37/10)).2.2.1 (by norm_num [ratTrunc])⟩

end Engine

namespace Engine

theorem msg_runway_ne_healthy (r : WithTop ℚ) : msg_runway r ≠ msg_healthy := by
  intro h
  have hlen := congrArg String.length h
  simp only [msg_runway, msg_healthy, String.length_append] at hlen
  have h30 : ("Emergency reserve covers only " : String).length = 30 := rfl
  have h47 : (" months. Target 6x monthly burn for resilience." : String).length = 47 := rfl
  have h55 : ("Cash runway and surplus look healthy for upcoming SIPs." : String).length = 55 := rfl
  rw [h30, h47, h55] at hlen
  omega

/-- C5: `predictive_alerts` returns exactly the singleton healthy message iff
surplus ≥ 5000, runway ≥ 3 and savings rate ≥ 0.20 hold simultaneously, and
in every other case the healthy message does not appear at all. -/
theorem predictive_alerts_healthy_iff (cs : CashSummary) :
    (predictive_alerts cs = [msg_healthy] ↔
      5000 ≤ cs.surplus ∧ 3 ≤ cs.runway_months ∧ 1/5 ≤ cs.savings_rate) ∧
    (¬(5000 ≤ cs.surplus ∧ 3 ≤ cs.runway_months ∧ 1/5 ≤ cs.savings_rate) →
      msg_healthy ∉ predictive_alerts cs) := by
  have hD : msg_deficit ≠ msg_healthy := by decide
  have hT : msg_thin ≠ msg_healthy := by decide
  have hS : msg_savings ≠ msg_healthy := by decide
  have hR := msg_runway_ne_healthy cs.runway_months
  by_cases hC : 5000 ≤ cs.surplus ∧ 3 ≤ cs.runway_months ∧ 1/5 ≤ cs.savings_rate
  · obtain ⟨c1, c2, c3⟩ := hC
    have h1 : ¬ cs.surplus < 0 := not_lt.mpr (by linarith)
    have h2 : ¬ cs.surplus < 5000 := not_lt.mpr c1
    have h3 : ¬ cs.runway_months < 3 := not_lt.mpr c2
    have h4 : ¬ cs.savings_rate < 1/5 := not_lt.mpr c3
    have hres : predictive_alerts cs = [msg_healthy] := by
      simp [-one_div, predictive_alerts, h1, h2, h3, h4]
    exact ⟨iff_of_true hres ⟨c1, c2, c3⟩, fun hn => absurd ⟨c1, c2, c3⟩ hn⟩
  · have hmem : msg_healthy ∉ predictive_alerts cs := by
      by_cases h1 : cs.surplus < 0 <;> by_cases h2 : cs.surplus < 5000 <;>
        by_cases h3 : cs.runway_months < 3 <;> by_cases h4 : cs.savings_rate < 1/5
      all_goals simp [-one_div, predictive_alerts, h1, h2, h3, h4, List.mem_append,
        Ne.symm hD, Ne.symm hT, Ne.symm hS, Ne.symm hR]
      all_goals exact absurd ⟨not_lt.mp h2, not_lt.mp h3, not_lt.mp h4⟩ hC
    refine ⟨⟨fun he => ?_, fun hc => absurd hc hC⟩, fun _ => hmem⟩
    exact absurd (by rw [he]; exact List.mem_singleton_self _) hmem

/-- C6: on nonnegative inputs `summarize_cash_flow` computes the spec's
surplus formula, the runway `cash_reserve / burn` (infinite exactly when the
burn is zero), and the clamped savings rate (zero when income is zero). -/
theorem summarize_cash_flow_spec (inc exp sips emi rec res : ℚ)
    (hinc : 0 ≤ inc) (hexp : 0 ≤ exp) (hsips : 0 ≤ sips) (hemi : 0 ≤ emi)
    (hrec : 0 ≤ rec) (hres : 0 ≤ res) :
    (summarize_cash_flow inc exp sips emi rec res).surplus
        = inc - (exp + sips + rec + emi) ∧
    (0 < exp + emi →
      (summarize_cash_flow inc exp sips emi rec res).runway_months
        = ((res / (exp + emi) : ℚ) : WithTop ℚ)) ∧
    (exp + emi = 0 →
      (summarize_cash_flow inc exp sips emi rec res).runway_months = ⊤) ∧
    (0 < inc →
      (summarize_cash_flow inc exp sips emi rec res).savings_rate
        = max ((inc - exp) / inc) 0) ∧
    (inc = 0 → (summarize_cash_flow inc exp sips emi rec res).savings_rate = 0) := by
  refine ⟨rfl, fun h => ?_, fun h => ?_, fun h => ?_, fun h => ?_⟩
  · simp [summarize_cash_flow, ne_of_gt h]
  · simp [summarize_cash_flow, h]
  · simp [summarize_cash_flow, ne_of_gt h]
  · simp [summarize_cash_flow, h]

theorem summarize_cash_flow_spec_witness :
    ((0:ℚ) ≤ 100 ∧ (0:ℚ) ≤ 40 ∧ (0:ℚ) ≤ 10 ∧ (0:ℚ) ≤ 10 ∧ (0:ℚ) ≤ 20 ∧ (0:ℚ) ≤ 500) ∧
    ((summarize_cash_flow 100 40 10 10 20 500).surplus = 100 - (40 + 10 + 20 + 10) ∧
     ((0:ℚ) < 40 + 10 →
       (summarize_cash_flow 100 40 10 10 20 500).runway_months
         = ((500 / (40 + 10) : ℚ) : WithTop ℚ)) ∧
     ((40 : ℚ) + 10 = 0 →
       (summarize_cash_flow 100 40 10 10 20 500).runway_months = ⊤) ∧
     ((0:ℚ) < 100 →
       (summarize_cash_flow 100 40 10 10 20 500).savings_rate
         = max ((100 - 40) / 100) 0) ∧
     ((100 : ℚ) = 0 → (summarize_cash_flow 100 40 10 10 20 500).savings_rate = 0)) :=
  ⟨⟨by norm_num, by norm_num, by norm_num, by norm_num, by norm_num, by norm_num⟩,
    summarize_cash_flow_spec 100 40 10 10 20 500 (by norm_num) (by norm_num)
      (by norm_num) (by norm_num) (by norm_num) (by norm_num)⟩

end Engine

namespace Engine

def cardC8 : CardItem := ⟨"TravelMax", some ["Travel"], some 0, some 0⟩

/-- C8 counterexample: the tag `"Travel"` and the category `"TRAVEL"` match
case-insensitively, yet `score_card` awards no +1.5 bonus (score stays 2),
because only the caller categories are lowercased, never the item tags. -/
theorem score_card_case_sensitivity_counterexample :
    ci_intersects ["Travel"] ["TRAVEL"] = true ∧
    score_card 50000 (lifestyle_tags_of ["TRAVEL"]) cardC8 = 2 := by
  constructor
  · decide
  · norm_num [score_card, lifestyle_tags_of, cardC8]
    decide

/-- C8 (amended): the +1.5 lifestyle bonus fires exactly when some raw
`best_for` tag equals the lowercased form of some caller category — the
comparison is case-insensitive only on the category side, so a tag that
contains an uppercase letter never matches. -/
theorem score_card_lifestyle_bonus (income : ℚ) (top_categories : List String)
    (item : CardItem) :
    score_card income (lifestyle_tags_of top_categories) item
      = (if item.min_income.getD 0 ≤ income then 2 else 0)
        + (if ∃ t ∈ item.best_for.getD [], ∃ c ∈ top_categories, t = strLower c
            then 3/2 else 0)
        - item.annual_fee.getD 0 / 10000 := by
  have hiff : ((item.best_for.getD []).any
        (fun t => (top_categories.map strLower).contains t) = true)
      ↔ ∃ t ∈ item.best_for.getD [], ∃ c ∈ top_categories, t = strLower c := by
    have hc : ∀ (l : List String) (a : String), l.contains a = true ↔ a ∈ l :=
      fun _ _ => List.elem_iff
    simp only [List.any_eq_true, hc, List.mem_map]
    constructor
    · rintro ⟨t, ht, c, hc, hct⟩
      exact ⟨t, ht, c, hc, hct.symm⟩
    · rintro ⟨t, ht, c, hc, hct⟩
      exact ⟨t, ht, c, hc, hct.symm⟩
  simp only [score_card, lifestyle_tags_of]
  by_cases hB : ∃ t ∈ item.best_for.getD [], ∃ c ∈ top_categories, t = strLower c
  · rw [if_pos (hiff.mpr hB), if_pos hB]
  · rw [if_neg (fun hc => hB (hiff.mp hc)), if_neg hB]

end Engine

namespace Reco

/-- `ProductType` enum from `app/models/product.py`. -/
inductive ProductType
  | mutual_fund | sip | fd | rd | stock | bond | insurance | ppf | credit_card | other
deriving DecidableEq

/-- `RiskLevel` enum from `app/models/product.py`. -/
inductive RiskLevel
  | low | medium | high
deriving DecidableEq

/-- The `.value` string of a `RiskLevel` member. -/
def riskValue : RiskLevel → String
  | .low => "low"
  | .medium => "medium"
  | .high => "high"

/-- `ord(risk_level.value[0])`: the code point of the first character of the
enum value. -/
def ordFirst (rl : RiskLevel) : ℤ := ((riskValue rl).get ⟨0⟩).toNat

/-- The fields of `Product` that `_calculate_match_score` reads; `Option`
fields are nullable columns. -/
structure Product where
  name : String
  product_type : ProductType
  risk_level : RiskLevel
  min_investment : Option ℚ
  annual_fee : Option ℚ
  rewards_type : Option String

/-- The `user_profile` dict built in `get_recommendations`: the keys `age`,
`income`, `risk_tolerance` are always present, with possibly-null values
taken from the `users` row. -/
structure UserProfile where
  age : Option ℤ
  income : Option ℚ
  risk_tolerance : Option String

/-- `risk_mapping.get(...)` from `_calculate_match_score`. -/
def riskMapping : String → Option RiskLevel
  | "conservative" => some .low
  | "moderate" => some .medium
  | "aggressive" => some .high
  | _ => none

/-- Risk-tolerance block: +0.3 on exact enum match, else +0.15 when the
first characters of the two enum values have code points one apart. -/
def riskBonus (p : Product) (ur : RiskLevel) : ℚ :=
  if p.risk_level = ur then 3/10
  else if (ordFirst p.risk_level - ordFirst ur).natAbs = 1 then 3/20
  else 0

/-- Income block: runs only when `income` is truthy; +0.1 if
`min_investment` is truthy and affordable, or +0.1 if it is falsy. -/
def incomeBonus (p : Product) (income : Option ℚ) : ℚ :=
  match income with
  | some inc =>
    if inc ≠ 0 then
      match p.min_investment with
      | some mi => if mi ≠ 0 then (if mi ≤ inc * (1/10) then 1/10 else 0) else 1/10
      | none => 1/10
    else 0
  | none => 0

/-- Age block (reached only when `age` is non-null, otherwise the Python
comparison `age < 30` raises). -/
def ageBonus (p : Product) (age : ℤ) : ℚ :=
  if age < 30 ∧ (p.product_type = .mutual_fund ∨ p.product_type = .sip) then 1/10
  else if 50 < age ∧ (p.product_type = .fd ∨ p.product_type = .ppf) then 1/10
  else 0

/-- Goal-horizon block: runs only when `goal_horizon_months` is truthy. -/
def horizonBonus (p : Product) (gh : Option ℚ) : ℚ :=
  match gh with
  | some h =>
    if h ≠ 0 then
      if h ≤ 12 then
        (if p.product_type = .fd ∨ p.product_type = .rd ∨ p.product_type = .credit_card
          then 1/10 else 0)
      else
        (if p.product_type = .mutual_fund ∨ p.product_type = .sip
            ∨ p.product_type = .insurance ∨ p.product_type = .ppf
          then 1/10 else 0)
    else 0
  | none => 0

/-- Credit-card block: fee fit and rewards presence, +0.05 each. -/
def ccBonus (p : Product) (income : Option ℚ) : ℚ :=
  if p.product_type = .credit_card then
    (match income, p.annual_fee with
      | some inc, some fee =>
        if inc ≠ 0 ∧ fee ≠ 0 ∧ fee < inc * (1/50) then 1/20 else 0
      | _, _ => 0)
    + (match p.rewards_type with
        | some s => if s ≠ "" then 1/20 else 0
        | none => 0)
  else 0

/-- `_calculate_match_score`. Returns `none` where the Python function
raises: when the risk-tolerance lookup yields `None` (the `elif` then
dereferences `user_risk.value`), or when `age` is `None` (the comparison
`age < 30` raises a `TypeError`). -/
def calculate_match_score (p : Product) (prof : UserProfile) (gh : Option ℚ) :
    Option ℚ :=
  match prof.risk_tolerance.bind riskMapping with
  | none => none
  | some ur =>
    match prof.age with
    | none => none
    | some age =>
      some (min (1/2 + riskBonus p ur + incomeBonus p prof.income + ageBonus p age
          + horizonBonus p gh + ccBonus p prof.income) 1)

end Reco

namespace Reco

theorem riskBonus_nonneg (p : Product) (ur : RiskLevel) : 0 ≤ riskBonus p ur := by
  unfold riskBonus; split_ifs <;> norm_num

theorem incomeBonus_nonneg (p : Product) (income : Option ℚ) :
    0 ≤ incomeBonus p income := by
  unfold incomeBonus
  rcases income with _ | inc
  · norm_num
  · rcases p.min_investment with _ | mi <;> dsimp only <;> split_ifs <;> norm_num

theorem ageBonus_nonneg (p : Product) (age : ℤ) : 0 ≤ ageBonus p age := by
  unfold ageBonus; split_ifs <;> norm_num

theorem horizonBonus_nonneg (p : Product) (gh : Option ℚ) :
    0 ≤ horizonBonus p gh := by
  unfold horizonBonus
  rcases gh with _ | h
  · norm_num
  · dsimp only
    split_ifs <;> norm_num

theorem ccBonus_nonneg (p : Product) (income : Option ℚ) :
    0 ≤ ccBonus p income := by
  unfold ccBonus
  split_ifs with h
  · have h1 : (0:ℚ) ≤ match income, p.annual_fee with
        | some inc, some fee =>
          if inc ≠ 0 ∧ fee ≠ 0 ∧ fee < inc * (1/50) then (1/20 : ℚ) else 0
        | _, _ => 0 := by
      rcases income with _ | inc <;> rcases p.annual_fee with _ | fee <;>
        dsimp only <;> (try split_ifs) <;> norm_num
    have h2 : (0:ℚ) ≤ match p.rewards_type with
        | some s => if s ≠ "" then (1/20 : ℚ) else 0
        | none => 0 := by
      rcases p.rewards_type with _ | s <;> dsimp only <;> (try split_ifs) <;> norm_num
    linarith
  · norm_num

/-- C7: the adjacency test compares code points of the first letters of the
enum values ("low", "medium", "high"); |'l'-'m'| = 1, so the low/medium pair
earns +0.15, but |'m'-'h'| = 5, so the adjacent medium/high pair earns no
risk bonus at all (score stays at the 0.5 base for an otherwise neutral
product), contradicting the documented one-step-apart rule. -/
theorem risk_adjacency_ord_bug :
    calculate_match_score ⟨"Fund L", .other, .low, none, none, none⟩
        ⟨some 40, none, some "moderate"⟩ none = some (13/20) ∧
    calculate_match_score ⟨"Fund H", .other, .high, none, none, none⟩
        ⟨some 40, none, some "moderate"⟩ none = some (1/2) ∧
    (ordFirst RiskLevel.medium - ordFirst RiskLevel.high).natAbs = 5 := by
  have hlow : ordFirst .low = 108 := by decide
  have hmed : ordFirst .medium = 109 := by decide
  have hhigh : ordFirst .high = 104 := by decide
  have hmod : riskMapping "moderate" = some RiskLevel.medium := rfl
  refine ⟨?_, ?_, ?_⟩
  · simp [calculate_match_score, hmod, riskBonus, hlow, hmed, incomeBonus,
      ageBonus, horizonBonus, ccBonus]
    norm_num
  · simp [calculate_match_score, hmod, riskBonus, hmed, hhigh, incomeBonus,
      ageBonus, horizonBonus, ccBonus]
    norm_num
  · rw [hmed, hhigh]
    rfl

/-- C10 counterexample: a user row whose `risk_tolerance` is NULL reaches
`ord(user_risk.value[0])` with `user_risk = None` and the scorer raises
instead of returning a score in [0.5, 1.0]. -/
theorem match_score_crash_counterexample :
    calculate_match_score ⟨"Index Fund", .mutual_fund, .medium, some 500, none, none⟩
      ⟨some 30, some 50000, none⟩ none = none := rfl

/-- C10 (amended): whenever the scorer returns at all — i.e. the
risk-tolerance string maps to a tier and `age` is non-null — the match score
starts at the 0.5 base, accrues only nonnegative bonuses, and is clamped at
1.0, so it lies in [0.5, 1.0]. -/
theorem match_score_bounds (p : Product) (prof : UserProfile) (gh : Option ℚ)
    (hrisk : (prof.risk_tolerance.bind riskMapping).isSome = true)
    (hage : prof.age.isSome = true) :
    ∃ s, calculate_match_score p prof gh = some s ∧ 1/2 ≤ s ∧ s ≤ 1 := by
  obtain ⟨ur, hur⟩ := Option.isSome_iff_exists.mp hrisk
  obtain ⟨a, ha⟩ := Option.isSome_iff_exists.mp hage
  unfold calculate_match_score
  rw [hur, ha]
  refine ⟨_, rfl, ?_, min_le_right _ 1⟩
  have h1 := riskBonus_nonneg p ur
  have h2 := incomeBonus_nonneg p prof.income
  have h3 := ageBonus_nonneg p a
  have h4 := horizonBonus_nonneg p gh
  have h5 := ccBonus_nonneg p prof.income
  exact le_min (by linarith) (by norm_num)

theorem match_score_bounds_witness :
    (((⟨some 30, some 50000, some "moderate"⟩ : UserProfile).risk_tolerance.bind
        riskMapping).isSome = true ∧
      (⟨some 30, some 50000, some "moderate"⟩ : UserProfile).age.isSome = true) ∧
    ∃ s, calculate_match_score
        ⟨"Index Fund", .mutual_fund, .medium, some 500, none, none⟩
        ⟨some 30, some 50000, some "moderate"⟩ none = some s ∧ 1/2 ≤ s ∧ s ≤ 1 :=
  ⟨⟨rfl, rfl⟩,
    match_score_bounds ⟨"Index Fund", .mutual_fund, .medium, some 500, none, none⟩
      ⟨some 30, some 50000, some "moderate"⟩ none rfl rfl⟩

end Reco

namespace AlertSvc

/-- Character-list prefix test (pattern, text). -/
def charsStart : List Char → List Char → Bool
  | [], _ => true
  | _ :: _, [] => false
  | p :: ps, c :: cs => p == c && charsStart ps cs

/-- Character-list substring test: does the pattern occur contiguously? -/
def charsContain (pat : List Char) : List Char → Bool
  | [] => pat.isEmpty
  | c :: cs => charsStart pat (c :: cs) || charsContain pat cs

/-- SQLAlchemy `column.contains(pat)` on a string column: substring test. -/
def strContains (s pat : String) : Bool := charsContain pat.data s.data

/-- `AlertType` enum from `app/models/alert.py`. -/
inductive AlertType
  | low_balance | missed_sip | goal_deadline | budget_exceeded | opportunity
  | risk_warning | due_soon | past_due | auto_pay_fail
deriving DecidableEq

/-- `AlertPriority` enum from `app/models/alert.py`. -/
inductive AlertPriority
  | low | medium | high | critical
deriving DecidableEq

/-- `TransactionType` enum from `app/models/transaction.py`. -/
inductive TransactionType
  | income | expense | investment | transfer
deriving DecidableEq

/-- `GoalStatus` enum from `app/models/goal.py`. -/
inductive GoalStatus
  | active | completed | paused | cancelled
deriving DecidableEq

/-- `ObligationStatus` enum from `app/models/obligation.py`. -/
inductive ObligationStatus
  | active | paused | closed
deriving DecidableEq

/-- A row of the `alerts` table (columns the service reads or writes);
`created_at` is the day stamp set by the server default `func.now()`. -/
structure AlertRec where
  user_id : ℤ
  alert_type : AlertType
  title : String
  message : String
  priority : AlertPriority
  is_read : Bool
  alert_metadata : String
  created_at : ℤ
deriving DecidableEq

/-- A row of the `transactions` table (columns the service reads). -/
structure TransactionRec where
  user_id : ℤ
  amount : ℚ
  transaction_type : TransactionType
  date : ℤ
deriving DecidableEq

/-- A row of the `goals` table (columns the service reads). -/
structure GoalRec where
  id : ℤ
  user_id : ℤ
  title : String
  target_amount : ℚ
  current_amount : ℚ
  target_date : ℤ
  status : GoalStatus
deriving DecidableEq

/-- A row of the `obligations` table (columns the service reads). -/
structure ObligationRec where
  id : ℤ
  user_id : ℤ
  title : String
  amount : ℚ
  due_date : ℤ
  next_due_date : Option ℤ
  status : ObligationStatus
deriving DecidableEq

/-- A row of the `users` table (columns the service reads). -/
structure UserRec where
  id : ℤ
  income : Option ℚ
deriving DecidableEq

/-- The tables `generate_all_alerts` only reads (never writes): the mutable
state is the alerts list, threaded separately. -/
structure Env where
  users : List UserRec
  transactions : List TransactionRec
  goals : List GoalRec
  obligations : List ObligationRec

/-- `db.query(func.sum(Transaction.amount)).filter(user, type).scalar() or 0`. -/
def totalAmount (env : Env) (uid : ℤ) (tt : TransactionType) : ℚ :=
  ((env.transactions.filter
      (fun t => decide (t.user_id = uid) && decide (t.transaction_type = tt))).map
    (fun t => t.amount)).sum

/-- The predicate of the dedup query in `check_low_balance`. -/
def lbMatches (uid : ℤ) (a : AlertRec) : Bool :=
  decide (a.user_id = uid) && decide (a.alert_type = AlertType.low_balance)
    && (a.is_read == false)

/-- The `Alert(...)` constructed by `check_low_balance` (`is_read` takes the
column default `False`, `created_at` the server default `now`). -/
def mkLowBalanceAlert (uid now : ℤ) (balance threshold : ℚ) : AlertRec :=
  { user_id := uid
    alert_type := .low_balance
    title := "Low Account Balance"
    message := "Your account balance (" ++ toString balance
      ++ ") is below the recommended threshold (" ++ toString threshold ++ ")."
    priority := .high
    is_read := false
    alert_metadata := "\x7b\"balance\": " ++ toString balance
      ++ ", \"threshold\": " ++ toString threshold ++ "\x7d"
    created_at := now }

/-- `check_low_balance` (threshold defaults to 10000 at the call site). -/
def check_low_balance (env : Env) (uid now : ℤ) (threshold : ℚ)
    (alerts : List AlertRec) : List AlertRec × Option AlertRec :=
  let balance := totalAmount env uid .income - totalAmount env uid .expense
  if balance < threshold then
    match alerts.find? (lbMatches uid) with
    | some _ => (alerts, none)
    | none =>
      let a := mkLowBalanceAlert uid now balance threshold
      (alerts ++ [a], some a)
  else (alerts, none)

/-- The goal filter of `check_goal_deadlines`: user, active status, and
target date within the next 30 days (dates are day counts). -/
def goalQualifies (uid now : ℤ) (g : GoalRec) : Bool :=
  decide (g.user_id = uid) && decide (g.status = GoalStatus.active)
    && decide (g.target_date ≤ now + 30) && decide (now ≤ g.target_date)

/-- The metadata fragment the dedup query searches for a goal. -/
def goalPattern (gid : ℤ) : String := "\"goal_id\": " ++ toString gid

/-- The predicate of the dedup query in `check_goal_deadlines`. -/
def goalAlertMatches (uid gid : ℤ) (a : AlertRec) : Bool :=
  decide (a.user_id = uid) && decide (a.alert_type = AlertType.goal_deadline)
    && strContains a.alert_metadata (goalPattern gid) && (a.is_read == false)

/-- The `Alert(...)` constructed per goal by `check_goal_deadlines`. -/
def mkGoalAlert (uid now : ℤ) (g : GoalRec) : AlertRec :=
  let days_remaining : ℤ := g.target_date - now
  let progress : ℚ := g.current_amount / g.target_amount * 100
  { user_id := uid
    alert_type := .goal_deadline
    title := "Goal Deadline Approaching: " ++ g.title
    message := "Your goal " ++ g.title ++ " deadline is in "
      ++ toString days_remaining ++ " days. Current progress: "
      ++ toString progress ++ "%"
    priority := if 50 < progress then .medium else .high
    alert_metadata := "\x7b" ++ goalPattern g.id ++ ", \"days_remaining\": "
      ++ toString days_remaining ++ ", \"progress\": " ++ toString progress ++ "\x7d"
    is_read := false
    created_at := now }

/-- The per-goal loop of `check_goal_deadlines`, threading the alerts list
(the dedup query sees alerts added earlier in the same loop, as the ORM
autoflushes pending rows). -/
def goalLoop (uid now : ℤ) : List GoalRec → List AlertRec → List AlertRec × List AlertRec
  | [], alerts => (alerts, [])
  | g :: gs, alerts =>
    match alerts.find? (goalAlertMatches uid g.id) with
    | some _ => goalLoop uid now gs alerts
    | none =>
      let a := mkGoalAlert uid now g
      let r := goalLoop uid now gs (alerts ++ [a])
      (r.1, a :: r.2)

/-- `check_goal_deadlines`. -/
def check_goal_deadlines (env : Env) (uid now : ℤ) (alerts : List AlertRec) :
    List AlertRec × List AlertRec :=
  goalLoop uid now (env.goals.filter (goalQualifies uid now)) alerts

/-- `obligation.next_due_date or obligation.due_date` (datetimes are always
truthy; `due_date` is a non-null column). -/
def oblEffectiveDue (o : ObligationRec) : ℤ := o.next_due_date.getD o.due_date

/-- The obligation query filter: user and ACTIVE status. -/
def oblActive (uid : ℤ) (o : ObligationRec) : Bool :=
  decide (o.user_id = uid) && decide (o.status = ObligationStatus.active)

/-- The metadata fragment the dedup query searches for an obligation. -/
def oblPattern (oid : ℤ) : String := "\"obligation_id\": " ++ toString oid

/-- The predicate of the dedup query in `check_obligations_due`
(`alert_type.in_([DUE_SOON, PAST_DUE])`). -/
def oblAlertMatches (uid oid : ℤ) (a : AlertRec) : Bool :=
  decide (a.user_id = uid)
    && (decide (a.alert_type = AlertType.due_soon)
        || decide (a.alert_type = AlertType.past_due))
    && strContains a.alert_metadata (oblPattern oid) && (a.is_read == false)

/-- The `Alert(...)` constructed per obligation by `check_obligations_due`. -/
def mkOblAlert (uid now : ℤ) (o : ObligationRec) : AlertRec :=
  let due := oblEffectiveDue o
  { user_id := uid
    alert_type := if due < now then .past_due else .due_soon
    title := "Payment Reminder: " ++ o.title
    message :=
      if due < now then
        o.title ++ " payment of " ++ toString o.amount ++ " is past due."
      else
        o.title ++ " payment of " ++ toString o.amount ++ " is due in "
          ++ toString (due - now) ++ " days."
    priority := if due < now then .high else .medium
    alert_metadata := "\x7b" ++ oblPattern o.id ++ ", \"due_date\": \""
      ++ toString due ++ "\"\x7d"
    is_read := false
    created_at := now }

/-- The per-obligation loop of `check_obligations_due` (`days_before = 5`):
skip when neither past due nor due within 5 days, then dedup and create. -/
def oblLoop (uid now : ℤ) : List ObligationRec → List AlertRec → List AlertRec × List AlertRec
  | [], alerts => (alerts, [])
  | o :: os, alerts =>
    let due := oblEffectiveDue o
    if ¬(due < now ∨ (now ≤ due ∧ due ≤ now + 5)) then oblLoop uid now os alerts
    else
      match alerts.find? (oblAlertMatches uid o.id) with
      | some _ => oblLoop uid now os alerts
      | none =>
        let a := mkOblAlert uid now o
        let r := oblLoop uid now os (alerts ++ [a])
        (r.1, a :: r.2)

/-- `check_obligations_due`. -/
def check_obligations_due (env : Env) (uid now : ℤ) (alerts : List AlertRec) :
    List AlertRec × List AlertRec :=
  oblLoop uid now (env.obligations.filter (oblActive uid)) alerts

/-- Current-month expenses: `sum(amount)` over the user's EXPENSE rows with
`date >= start_of_month` (`som`). -/
def monthExpenses (env : Env) (uid som : ℤ) : ℚ :=
  ((env.transactions.filter
      (fun t => decide (t.user_id = uid)
        && decide (t.transaction_type = TransactionType.expense)
        && decide (som ≤ t.date))).map
    (fun t => t.amount)).sum

/-- The predicate of the dedup query in `check_budget_exceeded`
(`func.date(created_at) >= start_of_month.date()`). -/
def budgetAlertMatches (uid som : ℤ) (a : AlertRec) : Bool :=
  decide (a.user_id = uid) && decide (a.alert_type = AlertType.budget_exceeded)
    && (a.is_read == false) && decide (som ≤ a.created_at)

/-- The `Alert(...)` constructed by `check_budget_exceeded`. -/
def mkBudgetAlert (uid now : ℤ) (expenses budget : ℚ) : AlertRec :=
  { user_id := uid
    alert_type := .budget_exceeded
    title := "Monthly Budget Exceeded"
    message := "You have exceeded your estimated monthly budget. Expenses: "
      ++ toString expenses ++ ", Budget: " ++ toString budget
    priority := .high
    is_read := false
    alert_metadata := "\x7b\"expenses\": " ++ toString expenses
      ++ ", \"budget\": " ++ toString budget ++ "\x7d"
    created_at := now }

/-- `check_budget_exceeded` (the `if user and user.income:` truthiness test
requires a user row with a non-null, nonzero income). -/
def check_budget_exceeded (env : Env) (uid now som : ℤ)
    (alerts : List AlertRec) : List AlertRec × Option AlertRec :=
  let total_expenses := monthExpenses env uid som
  match env.users.find? (fun u => decide (u.id = uid)) with
  | none => (alerts, none)
  | some u =>
    match u.income with
    | none => (alerts, none)
    | some inc =>
      if inc = 0 then (alerts, none)
      else
        let estimated_budget := inc * (8/10)
        if estimated_budget < total_expenses then
          match alerts.find? (budgetAlertMatches uid som) with
          | some _ => (alerts, none)
          | none =>
            let a := mkBudgetAlert uid now total_expenses estimated_budget
            (alerts ++ [a], some a)
        else (alerts, none)

/-- `generate_all_alerts`: runs the four checks in order against the same
session, collecting the created alerts; `now` is the (frozen) wall clock and
`som` the start of the current month. -/
def generate_all_alerts (env : Env) (uid now som : ℤ) (alerts : List AlertRec) :
    List AlertRec × List AlertRec :=
  let r1 := check_low_balance env uid now 10000 alerts
  let r2 := check_goal_deadlines env uid now r1.1
  let r3 := check_obligations_due env uid now r2.1
  let r4 := check_budget_exceeded env uid now som r3.1
  (r4.1, r1.2.toList ++ r2.2 ++ r3.2 ++ r4.2.toList)

end AlertSvc

namespace AlertSvc

theorem charsStart_append (p t : List Char) : charsStart p (p ++ t) = true := by
  induction p with
  | nil => rfl
  | cons c cs ih => simp [charsStart, ih]

theorem charsContain_append (s pat t : List Char) :
    charsContain pat (s ++ (pat ++ t)) = true := by
  induction s with
  | nil =>
    cases pat with
    | nil => cases t <;> simp [charsContain, charsStart]
    | cons p ps =>
      have h1 : charsStart (p :: ps) (p :: (ps ++ t)) = true := by
        simp [charsStart, charsStart_append]
      simp [charsContain, h1]
  | cons c cs ih => simp [charsContain, ih]

/-- Specialisation to a single-character prefix (every metadata payload is
one opening brace followed by its search fragment). -/
theorem charsContain_cons (c : Char) (pat t : List Char) :
    charsContain pat (c :: (pat ++ t)) = true :=
  charsContain_append [c] pat t

/-- A freshly written metadata payload contains its own search fragment. -/
theorem strContains_parts (a pat b : String) :
    strContains (a ++ pat ++ b) pat = true := by
  unfold strContains
  rw [String.data_append, String.data_append, List.append_assoc]
  exact charsContain_append _ _ _

theorem mkLowBalanceAlert_matches (uid now : ℤ) (balance threshold : ℚ) :
    lbMatches uid (mkLowBalanceAlert uid now balance threshold) = true := by
  simp [lbMatches, mkLowBalanceAlert]

theorem mkGoalAlert_matches (uid now : ℤ) (g : GoalRec) :
    goalAlertMatches uid g.id (mkGoalAlert uid now g) = true := by
  simp [goalAlertMatches, mkGoalAlert, strContains, String.data_append,
    List.append_assoc, charsContain_cons]

theorem mkOblAlert_matches (uid now : ℤ) (o : ObligationRec) :
    oblAlertMatches uid o.id (mkOblAlert uid now o) = true := by
  by_cases h : oblEffectiveDue o < now <;>
    simp [oblAlertMatches, mkOblAlert, h, strContains, String.data_append,
      List.append_assoc, charsContain_cons]

theorem mkBudgetAlert_matches (uid now som : ℤ) (expenses budget : ℚ)
    (hsom : som ≤ now) :
    budgetAlertMatches uid som (mkBudgetAlert uid now expenses budget) = true := by
  simp [budgetAlertMatches, mkBudgetAlert, hsom]

end AlertSvc

namespace AlertSvc

/-- The low-balance condition is blocked: if the balance is below the
threshold, an unread low-balance alert for the user already exists. -/
def LBSat (env : Env) (uid : ℤ) (th : ℚ) (alerts : List AlertRec) : Prop :=
  totalAmount env uid .income - totalAmount env uid .expense < th →
    ∃ a ∈ alerts, lbMatches uid a = true

theorem LBSat_append {env : Env} {uid : ℤ} {th : ℚ} {s : List AlertRec}
    (h : LBSat env uid th s) (e : List AlertRec) : LBSat env uid th (s ++ e) :=
  fun hb =>
    let ⟨a, ha, hp⟩ := h hb
    ⟨a, List.mem_append_left e ha, hp⟩

theorem check_low_balance_append (env : Env) (uid now : ℤ) (th : ℚ)
    (s : List AlertRec) :
    (check_low_balance env uid now th s).1
      = s ++ (check_low_balance env uid now th s).2.toList := by
  unfold check_low_balance
  by_cases hb : totalAmount env uid .income - totalAmount env uid .expense < th
  · cases hf : s.find? (lbMatches uid) <;> simp [hb, hf]
  · simp [hb]

theorem check_low_balance_sat (env : Env) (uid now : ℤ) (th : ℚ)
    (s : List AlertRec) :
    LBSat env uid th (check_low_balance env uid now th s).1 := by
  intro hb
  cases hf : s.find? (lbMatches uid) with
  | none =>
    exact ⟨mkLowBalanceAlert uid now
        (totalAmount env uid .income - totalAmount env uid .expense) th,
      by simp [check_low_balance, hb, hf],
      mkLowBalanceAlert_matches uid now _ th⟩
  | some x =>
    refine ⟨x, ?_, List.find?_some hf⟩
    simp only [check_low_balance, if_pos hb, hf]
    exact List.mem_of_find?_eq_some hf

theorem check_low_balance_noop (env : Env) (uid now : ℤ) (th : ℚ)
    (s : List AlertRec) (h : LBSat env uid th s) :
    check_low_balance env uid now th s = (s, none) := by
  unfold check_low_balance
  by_cases hb : totalAmount env uid .income - totalAmount env uid .expense < th
  · obtain ⟨a, ha, hp⟩ := h hb
    obtain ⟨x, hx⟩ :=
      Option.isSome_iff_exists.mp (List.find?_isSome.mpr ⟨a, ha, hp⟩)
    simp [hb, hx]
  · simp [hb]

theorem goalLoop_fst (uid now : ℤ) :
    ∀ (gs : List GoalRec) (s : List AlertRec),
      (goalLoop uid now gs s).1 = s ++ (goalLoop uid now gs s).2
  | [], s => by simp [goalLoop]
  | g :: gs, s => by
    cases hf : s.find? (goalAlertMatches uid g.id) with
    | some x => simp [goalLoop, hf, goalLoop_fst uid now gs s]
    | none => simp [goalLoop, hf, goalLoop_fst uid now gs (s ++ [mkGoalAlert uid now g])]

theorem goalLoop_sat (uid now : ℤ) :
    ∀ (gs : List GoalRec) (s : List AlertRec), ∀ g ∈ gs,
      ∃ a ∈ (goalLoop uid now gs s).1, goalAlertMatches uid g.id a = true
  | [], _ => by simp
  | g' :: gs, s => by
    intro g hg
    cases hf : s.find? (goalAlertMatches uid g'.id) with
    | some x =>
      have hres : goalLoop uid now (g' :: gs) s = goalLoop uid now gs s := by
        simp [goalLoop, hf]
      rw [hres]
      rcases List.mem_cons.mp hg with rfl | hg'
      · refine ⟨x, ?_, List.find?_some hf⟩
        rw [goalLoop_fst]
        exact List.mem_append_left _ (List.mem_of_find?_eq_some hf)
      · exact goalLoop_sat uid now gs s g hg'
    | none =>
      have hres : (goalLoop uid now (g' :: gs) s).1
          = (goalLoop uid now gs (s ++ [mkGoalAlert uid now g'])).1 := by
        simp [goalLoop, hf]
      rw [hres]
      rcases List.mem_cons.mp hg with rfl | hg'
      · refine ⟨mkGoalAlert uid now g, ?_, mkGoalAlert_matches uid now g⟩
        rw [goalLoop_fst]
        exact List.mem_append_left _
          (List.mem_append_right _ (List.mem_singleton_self _))
      · exact goalLoop_sat uid now gs (s ++ [mkGoalAlert uid now g']) g hg'

theorem goalLoop_noop (uid now : ℤ) :
    ∀ (gs : List GoalRec) (s : List AlertRec),
      (∀ g ∈ gs, ∃ a ∈ s, goalAlertMatches uid g.id a = true) →
      goalLoop uid now gs s = (s, [])
  | [], _ => fun _ => rfl
  | g :: gs, s => fun h => by
    obtain ⟨a, ha, hp⟩ := h g (List.mem_cons_self g gs)
    obtain ⟨x, hx⟩ :=
      Option.isSome_iff_exists.mp (List.find?_isSome.mpr ⟨a, ha, hp⟩)
    have hrec := goalLoop_noop uid now gs s
      (fun g' hg' => h g' (List.mem_cons_of_mem g hg'))
    simp [goalLoop, hx, hrec]

/-- Every qualifying goal is blocked by an unread alert carrying its id. -/
def GoalSat (env : Env) (uid now : ℤ) (alerts : List AlertRec) : Prop :=
  ∀ g ∈ env.goals.filter (goalQualifies uid now),
    ∃ a ∈ alerts, goalAlertMatches uid g.id a = true

theorem GoalSat_append {env : Env} {uid now : ℤ} {s : List AlertRec}
    (h : GoalSat env uid now s) (e : List AlertRec) : GoalSat env uid now (s ++ e) :=
  fun g hg =>
    let ⟨a, ha, hp⟩ := h g hg
    ⟨a, List.mem_append_left e ha, hp⟩

theorem check_goal_deadlines_append (env : Env) (uid now : ℤ) (s : List AlertRec) :
    (check_goal_deadlines env uid now s).1
      = s ++ (check_goal_deadlines env uid now s).2 :=
  goalLoop_fst uid now _ s

theorem check_goal_deadlines_sat (env : Env) (uid now : ℤ) (s : List AlertRec) :
    GoalSat env uid now (check_goal_deadlines env uid now s).1 :=
  fun g hg => goalLoop_sat uid now _ s g hg

theorem check_goal_deadlines_noop (env : Env) (uid now : ℤ) (s : List AlertRec)
    (h : GoalSat env uid now s) : check_goal_deadlines env uid now s = (s, []) :=
  goalLoop_noop uid now _ s h

end AlertSvc

namespace AlertSvc

/-- The temporal guard of the obligation loop: past due, or due within the
next `days_before = 5` days. -/
def oblTemporal (now : ℤ) (o : ObligationRec) : Prop :=
  oblEffectiveDue o < now
    ∨ (now ≤ oblEffectiveDue o ∧ oblEffectiveDue o ≤ now + 5)

theorem oblLoop_fst (uid now : ℤ) :
    ∀ (os : List ObligationRec) (s : List AlertRec),
      (oblLoop uid now os s).1 = s ++ (oblLoop uid now os s).2
  | [], s => by simp [oblLoop]
  | o :: os, s => by
    by_cases ht : oblEffectiveDue o < now
        ∨ (now ≤ oblEffectiveDue o ∧ oblEffectiveDue o ≤ now + 5)
    · cases hf : s.find? (oblAlertMatches uid o.id) with
      | some x => simp [oblLoop, ht, hf, oblLoop_fst uid now os s]
      | none => simp [oblLoop, ht, hf, oblLoop_fst uid now os (s ++ [mkOblAlert uid now o])]
    · simp [oblLoop, ht, oblLoop_fst uid now os s]

theorem oblLoop_sat (uid now : ℤ) :
    ∀ (os : List ObligationRec) (s : List AlertRec), ∀ o ∈ os, oblTemporal now o →
      ∃ a ∈ (oblLoop uid now os s).1, oblAlertMatches uid o.id a = true
  | [], _ => by simp
  | o' :: os, s => by
    intro o ho ht
    by_cases ht' : oblEffectiveDue o' < now
        ∨ (now ≤ oblEffectiveDue o' ∧ oblEffectiveDue o' ≤ now + 5)
    · cases hf : s.find? (oblAlertMatches uid o'.id) with
      | some x =>
        have hres : oblLoop uid now (o' :: os) s = oblLoop uid now os s := by
          simp [oblLoop, ht', hf]
        rw [hres]
        rcases List.mem_cons.mp ho with rfl | ho'
        · refine ⟨x, ?_, List.find?_some hf⟩
          rw [oblLoop_fst]
          exact List.mem_append_left _ (List.mem_of_find?_eq_some hf)
        · exact oblLoop_sat uid now os s o ho' ht
      | none =>
        have hres : (oblLoop uid now (o' :: os) s).1
            = (oblLoop uid now os (s ++ [mkOblAlert uid now o'])).1 := by
          simp [oblLoop, ht', hf]
        rw [hres]
        rcases List.mem_cons.mp ho with rfl | ho'
        · refine ⟨mkOblAlert uid now o, ?_, mkOblAlert_matches uid now o⟩
          rw [oblLoop_fst]
          exact List.mem_append_left _
            (List.mem_append_right _ (List.mem_singleton_self _))
        · exact oblLoop_sat uid now os (s ++ [mkOblAlert uid now o']) o ho' ht
    · have hres : oblLoop uid now (o' :: os) s = oblLoop uid now os s := by
        simp [oblLoop, ht']
      rw [hres]
      rcases List.mem_cons.mp ho with rfl | ho'
      · exact absurd ht ht'
      · exact oblLoop_sat uid now os s o ho' ht

theorem oblLoop_noop (uid now : ℤ) :
    ∀ (os : List ObligationRec) (s : List AlertRec),
      (∀ o ∈ os, oblTemporal now o → ∃ a ∈ s, oblAlertMatches uid o.id a = true) →
      oblLoop uid now os s = (s, [])
  | [], _ => fun _ => rfl
  | o :: os, s => fun h => by
    have hrec := oblLoop_noop uid now os s
      (fun o' ho' ht => h o' (List.mem_cons_of_mem o ho') ht)
    by_cases ht : oblEffectiveDue o < now
        ∨ (now ≤ oblEffectiveDue o ∧ oblEffectiveDue o ≤ now + 5)
    · obtain ⟨a, ha, hp⟩ := h o (List.mem_cons_self o os) ht
      obtain ⟨x, hx⟩ :=
        Option.isSome_iff_exists.mp (List.find?_isSome.mpr ⟨a, ha, hp⟩)
      simp [oblLoop, ht, hx, hrec]
    · simp [oblLoop, ht, hrec]

/-- Every active obligation in the alert window is blocked by an unread
due-soon/past-due alert carrying its id. -/
def OblSat (env : Env) (uid now : ℤ) (alerts : List AlertRec) : Prop :=
  ∀ o ∈ env.obligations.filter (oblActive uid), oblTemporal now o →
    ∃ a ∈ alerts, oblAlertMatches uid o.id a = true

theorem OblSat_append {env : Env} {uid now : ℤ} {s : List AlertRec}
    (h : OblSat env uid now s) (e : List AlertRec) : OblSat env uid now (s ++ e) :=
  fun o ho ht =>
    let ⟨a, ha, hp⟩ := h o ho ht
    ⟨a, List.mem_append_left e ha, hp⟩

theorem check_obligations_due_append (env : Env) (uid now : ℤ) (s : List AlertRec) :
    (check_obligations_due env uid now s).1
      = s ++ (check_obligations_due env uid now s).2 :=
  oblLoop_fst uid now _ s

theorem check_obligations_due_sat (env : Env) (uid now : ℤ) (s : List AlertRec) :
    OblSat env uid now (check_obligations_due env uid now s).1 :=
  fun o ho ht => oblLoop_sat uid now _ s o ho ht

theorem check_obligations_due_noop (env : Env) (uid now : ℤ) (s : List AlertRec)
    (h : OblSat env uid now s) : check_obligations_due env uid now s = (s, []) :=
  oblLoop_noop uid now _ s h

end AlertSvc

namespace AlertSvc

/-- The budget check fires: the user row exists, has truthy income, and the
month's expenses exceed 80% of it. -/
def budgetFires (env : Env) (uid som : ℤ) : Prop :=
  ∃ u, env.users.find? (fun u' => decide (u'.id = uid)) = some u ∧
    ∃ inc, u.income = some inc ∧ inc ≠ 0 ∧
      inc * (8/10) < monthExpenses env uid som

/-- The budget condition is blocked by an unread budget alert created this
month. -/
def BudgetSat (env : Env) (uid som : ℤ) (alerts : List AlertRec) : Prop :=
  budgetFires env uid som → ∃ a ∈ alerts, budgetAlertMatches uid som a = true

theorem BudgetSat_append {env : Env} {uid som : ℤ} {s : List AlertRec}
    (h : BudgetSat env uid som s) (e : List AlertRec) : BudgetSat env uid som (s ++ e) :=
  fun hf =>
    let ⟨a, ha, hp⟩ := h hf
    ⟨a, List.mem_append_left e ha, hp⟩

theorem check_budget_exceeded_append (env : Env) (uid now som : ℤ)
    (s : List AlertRec) :
    (check_budget_exceeded env uid now som s).1
      = s ++ (check_budget_exceeded env uid now som s).2.toList := by
  unfold check_budget_exceeded
  cases hu : env.users.find? (fun u => decide (u.id = uid)) with
  | none => simp
  | some u =>
    cases hi : u.income with
    | none => simp [hi]
    | some inc =>
      by_cases h0 : inc = 0
      · simp [hi, h0]
      · by_cases hex : inc * (8/10) < monthExpenses env uid som
        · cases hf : s.find? (budgetAlertMatches uid som) <;> simp [hi, h0, hex, hf]
        · simp [hi, h0, hex]

theorem check_budget_exceeded_sat (env : Env) (uid now som : ℤ)
    (s : List AlertRec) (hsom : som ≤ now) :
    BudgetSat env uid som (check_budget_exceeded env uid now som s).1 := by
  intro hfire
  obtain ⟨u, hu, inc, hi, h0, hex⟩ := hfire
  cases hf : s.find? (budgetAlertMatches uid som) with
  | none =>
    refine ⟨mkBudgetAlert uid now (monthExpenses env uid som) (inc * (8/10)), ?_,
      mkBudgetAlert_matches uid now som _ _ hsom⟩
    simp [check_budget_exceeded, hu, hi, h0, hex, hf]
  | some x =>
    refine ⟨x, ?_, List.find?_some hf⟩
    simp only [check_budget_exceeded, hu, hi, h0, if_neg h0, if_pos hex, hf]
    exact List.mem_of_find?_eq_some hf

theorem check_budget_exceeded_noop (env : Env) (uid now som : ℤ)
    (s : List AlertRec) (h : BudgetSat env uid som s) :
    check_budget_exceeded env uid now som s = (s, none) := by
  unfold check_budget_exceeded
  cases hu : env.users.find? (fun u => decide (u.id = uid)) with
  | none => simp
  | some u =>
    cases hi : u.income with
    | none => simp [hi]
    | some inc =>
      by_cases h0 : inc = 0
      · simp [hi, h0]
      · by_cases hex : inc * (8/10) < monthExpenses env uid som
        · obtain ⟨a, ha, hp⟩ := h ⟨u, hu, inc, hi, h0, hex⟩
          obtain ⟨x, hx⟩ :=
            Option.isSome_iff_exists.mp (List.find?_isSome.mpr ⟨a, ha, hp⟩)
          simp [hi, h0, hex, hx]
        · simp [hi, h0, hex]

end AlertSvc

namespace AlertSvc

/-- C9: with no intervening state change (frozen clock `now`, same start of
month `som`, read-only tables, and every goal target nonzero so the Python
progress division is defined), a second invocation of `generate_all_alerts`
creates no alerts and leaves the alerts table unchanged: each alert created
by the first run is unread and matches its own dedup query, so every
triggered type/entity is skipped the second time. -/
theorem generate_all_alerts_idempotent (env : Env) (uid now som : ℤ)
    (hsom : som ≤ now)
    (hgoals : ∀ g ∈ env.goals, g.target_amount ≠ 0)
    (alerts : List AlertRec) :
    generate_all_alerts env uid now som
        (generate_all_alerts env uid now som alerts).1
      = ((generate_all_alerts env uid now som alerts).1, []) := by
  have hgen : (generate_all_alerts env uid now som alerts).1
      = (check_budget_exceeded env uid now som
          ((check_obligations_due env uid now
            ((check_goal_deadlines env uid now
              ((check_low_balance env uid now 10000 alerts).1)).1)).1)).1 := rfl
  rw [hgen]
  set s1 := (check_low_balance env uid now 10000 alerts).1 with hs1
  set s2 := (check_goal_deadlines env uid now s1).1 with hs2
  set s3 := (check_obligations_due env uid now s2).1 with hs3
  set s4 := (check_budget_exceeded env uid now som s3).1 with hs4
  have S1a : LBSat env uid 10000 s1 := check_low_balance_sat env uid now 10000 alerts
  have S2a : GoalSat env uid now s2 := check_goal_deadlines_sat env uid now s1
  have S3a : OblSat env uid now s3 := check_obligations_due_sat env uid now s2
  have S4a : BudgetSat env uid som s4 := check_budget_exceeded_sat env uid now som s3 hsom
  have hA2 : s2 = s1 ++ (check_goal_deadlines env uid now s1).2 :=
    check_goal_deadlines_append env uid now s1
  have hA3 : s3 = s2 ++ (check_obligations_due env uid now s2).2 :=
    check_obligations_due_append env uid now s2
  have hA4 : s4 = s3 ++ (check_budget_exceeded env uid now som s3).2.toList :=
    check_budget_exceeded_append env uid now som s3
  have S1 : LBSat env uid 10000 s4 := by
    rw [hA4, hA3, hA2]
    exact LBSat_append (LBSat_append (LBSat_append S1a _) _) _
  have S2 : GoalSat env uid now s4 := by
    rw [hA4, hA3]
    exact GoalSat_append (GoalSat_append S2a _) _
  have S3 : OblSat env uid now s4 := by
    rw [hA4]
    exact OblSat_append S3a _
  have n1 : check_low_balance env uid now 10000 s4 = (s4, none) :=
    check_low_balance_noop env uid now 10000 s4 S1
  have n2 : check_goal_deadlines env uid now s4 = (s4, []) :=
    check_goal_deadlines_noop env uid now s4 S2
  have n3 : check_obligations_due env uid now s4 = (s4, []) :=
    check_obligations_due_noop env uid now s4 S3
  have n4 : check_budget_exceeded env uid now som s4 = (s4, none) :=
    check_budget_exceeded_noop env uid now som s4 S4a
  show generate_all_alerts env uid now som s4 = (s4, [])
  simp [generate_all_alerts, n1, n2, n3, n4]

/-- A concrete database for the idempotency witness: the user is low on
balance, over budget, has a goal due in 20 days and an obligation due
tomorrow, so every check fires on the first run. -/
def envC9 : Env :=
  { users := [⟨1, some 100⟩]
    transactions := [⟨1, 1000, .expense, 5⟩]
    goals := [⟨1, 1, "Car", 100, 50, 20, .active⟩]
    obligations := [⟨2, 1, "EMI", 50, 11, none, .active⟩] }

theorem generate_all_alerts_idempotent_witness :
    ((0 : ℤ) ≤ 10 ∧ ∀ g ∈ envC9.goals, g.target_amount ≠ 0) ∧
    generate_all_alerts envC9 1 10 0 (generate_all_alerts envC9 1 10 0 []).1
      = ((generate_all_alerts envC9 1 10 0 []).1, []) :=
  ⟨⟨by norm_num, by decide⟩,
    generate_all_alerts_idempotent envC9 1 10 0 (by norm_num) (by decide) []⟩

end AlertSvc
